import Mathlib

/-!
Verification development for the ITL411 Pokemon recommendation system.

The repository ships a JavaScript frontend (services, section components)
and documents a Python backend (feature encoder, DBSCAN clustering engine,
recommendation service, PCA projection) that is not part of the staged
sources. Frontend behaviour below is embedded directly from the JavaScript
sources; engine definitions carry a doc comment starting with
"Modelled from the spec:" and follow the specification text.
-/

/-! ## JavaScript string primitives

String operations are embedded structurally over the character list of a
string so that they compute by kernel reduction: an ASCII lower-casing
(JavaScript toLowerCase on the identifiers used here), a whitespace trim
(JavaScript trim), and a substring test (JavaScript String.includes). -/

/-- ASCII lower-casing of one character, as toLowerCase acts on the ASCII
identifiers and names this frontend manipulates. -/
def charLower (c : Char) : Char :=
  if 65 ≤ c.toNat ∧ c.toNat ≤ 90 then Char.ofNat (c.toNat + 32) else c

/-- Lower-case every character of a character list. -/
def lowerData (l : List Char) : List Char := l.map charLower

/-- JavaScript toLowerCase over a string, via its character list. -/
def toLowerJS (s : String) : String := String.mk (lowerData s.data)

/-- Whitespace test used by the trim embedding. -/
def isWSChar (c : Char) : Bool := c == ' ' || c == '\t' || c == '\n' || c == '\r'

/-- Drop whitespace from both ends of a character list. -/
def trimData (l : List Char) : List Char :=
  ((l.dropWhile isWSChar).reverse.dropWhile isWSChar).reverse

/-- JavaScript trim over a string, via its character list. -/
def trimJS (s : String) : String := String.mk (trimData s.data)

/-- Does the haystack start with the pattern? Structural helper for the
substring test. -/
def startsWithData : List Char → List Char → Bool
  | [], _ => true
  | _ :: _, [] => false
  | p :: ps, h :: hs => p == h && startsWithData ps hs

/-- Does the pattern occur as a contiguous run inside the haystack?
Recursion over the haystack; the empty pattern occurs everywhere. -/
def containsData (pat : List Char) : List Char → Bool
  | [] => startsWithData pat []
  | h :: hs => startsWithData pat (h :: hs) || containsData pat hs

/-- JavaScript String.includes: does s contain pat as a substring? -/
def strContains (s pat : String) : Bool := containsData pat.data s.data

/-! ## apiClient (frontend/src/utils/api-client.js)

The client wraps fetch in a try/catch and returns a result object in every
case. A JSON value and JavaScript truthiness are embedded so that the
normalization line (json.data optional-chained to results, with two
fallbacks through the or-operator) can be stated exactly. -/

/-- A parsed JSON value as the client sees one. -/
inductive Json where
  | null
  | boolean (b : Bool)
  | number (q : ℚ)
  | string (s : String)
  | array (elems : List Json)
  | object (fields : List (String × Json))

/-- JavaScript truthiness of a JSON value: null, false, zero and the empty
string are falsy; arrays and objects are truthy. -/
def Json.truthy : Json → Bool
  | .null => false
  | .boolean b => b
  | .number q => decide (q ≠ 0)
  | .string s => decide (s ≠ "")
  | .array _ => true
  | .object _ => true

/-- Property access on a JSON value: a field of an object, and nothing on
any other shape (optional chaining stops at null, and a data property on a
non-object is absent). -/
def Json.getField : Json → String → Option Json
  | .object fields, k => (fields.find? (fun f => f.1 == k)).map (fun f => f.2)
  | _, _ => none

/-- JavaScript or-operator with an optional left operand: an absent or falsy
left value selects the right one. -/
def jsOr (a : Option Json) (b : Json) : Json :=
  match a with
  | some v => if v.truthy then v else b
  | none => b

/-- The normalization line of apiClient: json.data optional-chained to
results, or json.data, or the raw json. -/
def normalizeData (json : Json) : Json :=
  jsOr ((json.getField "data").bind (fun d => d.getField "results"))
    (jsOr (json.getField "data") json)

/-- What one call of fetch followed by response.json() can come to: the
fetch promise rejects (or json() throws) with an error message, or a
response arrives with an ok flag, a status, a status text and a parse
outcome for its body. -/
inductive FetchOutcome where
  | throws (message : String)
  | response (ok : Bool) (status : ℕ) (statusText : String) (body : Except String Json)

/-- The result object apiClient resolves with. -/
structure ApiResult where
  success : Bool
  data : Option Json
  error : Option String

/-- The error string built for a non-ok response. -/
def httpErrorMessage (status : ℕ) (statusText : String) : String :=
  "HTTP Error " ++ toString status ++ ": " ++ statusText

/-- The error string taken from a caught exception: its message, with a
fallback when that message is empty (falsy). -/
def jsErrorMessage (m : String) : String :=
  if m = "" then "Network connection failed" else m

/-- The apiClient function of api-client.js over a fetch outcome: non-ok
responses and caught exceptions become failure results, an ok response with
a parsed body becomes a success result carrying the normalized data. -/
def apiClient : FetchOutcome → ApiResult
  | .throws m => ⟨false, none, some (jsErrorMessage m)⟩
  | .response ok status statusText body =>
    if ok then
      match body with
      | .ok json => ⟨true, some (normalizeData json), none⟩
      | .error m => ⟨false, none, some (jsErrorMessage m)⟩
    else ⟨false, none, some (httpErrorMessage status statusText)⟩

/-! ## PokemonService (frontend/src/services/pokemon-service.js)

The service object literal defines exactly two methods. The ML components
invoke two further names on it. -/

/-- The method names defined on the PokemonService object literal. -/
def pokemonServiceMethods : List String := ["getAll", "search"]

/-- The method the recommendations component invokes on PokemonService
(recommendations.js, fetchAndRenderRecommendations). -/
def recommendationsComponentCall : String := "getRecommendations"

/-- The method the cluster chart component invokes on PokemonService
(stat-charts.js, fetchClusterData). -/
def clusterChartComponentCall : String := "getClusterVisualization"

/-! ## Catalog records and the name search -/

/-- A catalog record: stable id, name, and its encoded feature vector
(empty for code paths that never read it). -/
structure Record where
  id : ℕ
  name : String
  vec : List ℚ
deriving DecidableEq

/-- Modelled from the spec: the backend route GET /pokemon/search?name= is
not in the staged sources; per the spec it is a substring / partial name
match over the catalog. The record name is compared case-insensitively with
the query term the frontend sends. -/
def searchCatalog (catalog : List Record) (term : String) : List Record :=
  catalog.filter (fun r => strContains (toLowerJS r.name) term)

/-- The search path the frontend drives (pokemon-grid.js listener, loadData
and PokemonService.search): the dispatched term is lower-cased and trimmed;
an empty term loads the whole catalog (getAll), any other term goes to the
search route. -/
def searchPipeline (catalog : List Record) (detail : String) : List Record :=
  let term := trimJS (toLowerJS detail)
  if term = "" then catalog else searchCatalog catalog term

/-! ## Clustering engine (DBSCAN), modelled from the spec

The backend pokemon_recommender.py is not in the staged sources. The
definitions follow section 4.2 and the glossary of the specification:
Euclidean distance on the encoded vectors, a core point is a record whose
eps-neighborhood (itself included) holds at least minPts records, a record
reachable from no core point is noise with label -1, and clusters are the
neighborhood-expansion components of the core points, a border point
joining the first cluster that reaches it. Distances enter only through
comparisons, so the squared Euclidean distance (a rational) is used; the
Euclidean distance itself is its real square root. -/

/-- Squared Euclidean distance between two encoded vectors. -/
def dist2 (u v : List ℚ) : ℚ := (List.zipWith (fun a b => (a - b) ^ 2) u v).sum

/-- Is v within distance eps of u (squared comparison)? -/
def inRange (eps : ℚ) (u v : List ℚ) : Bool := decide (dist2 u v ≤ eps ^ 2)

/-- Modelled from the spec: the eps-neighborhood of a record, every catalog
record within distance eps, the record itself included. -/
def neighborhood (c : List Record) (eps : ℚ) (p : Record) : List Record :=
  c.filter (fun q => inRange eps p.vec q.vec)

/-- Modelled from the spec: a core point has at least minPts records in its
eps-neighborhood, itself included. -/
def isCore (c : List Record) (eps : ℚ) (minPts : ℕ) (p : Record) : Bool :=
  decide (minPts ≤ (neighborhood c eps p).length)

/-- Modelled from the spec: the core points whose eps-neighborhood holds p.
A record is reachable from a core point exactly when this list is nonempty;
the glossary labels a record noise when it is reachable from no core
point. -/
def coresInRange (c : List Record) (eps : ℚ) (minPts : ℕ) (p : Record) : List Record :=
  c.filter (fun q => isCore c eps minPts q && inRange eps p.vec q.vec)

/-- Modelled from the spec: iterated minimum-id propagation along the core
adjacency (two core points adjacent when within eps of each other). After
as many rounds as the catalog has records, a core point carries the least
record id of its expansion component; that id is the numeric cluster
label, which the spec leaves traversal-dependent but internally
consistent. -/
def coreRep (c : List Record) (eps : ℚ) (minPts : ℕ) : ℕ → Record → ℕ
  | 0, p => p.id
  | k + 1, p => ((coresInRange c eps minPts p).map (coreRep c eps minPts k)).foldr min p.id

/-- Modelled from the spec: the cluster label of one record. A record
reachable from no core point is noise (-1); otherwise it takes the least
component representative among the core points that reach it, which
enforces the first-assignment-wins rule for border points (the cluster
whose seed comes earliest claims them). -/
def labelOf (c : List Record) (eps : ℚ) (minPts : ℕ) (p : Record) : ℤ :=
  match (coresInRange c eps minPts p).map (coreRep c eps minPts c.length) with
  | [] => -1
  | k :: ks => Int.ofNat (ks.foldr min k)

/-- Modelled from the spec: fit(vectors, eps, minPts) labels every catalog
record, producing the ClusterAssignment. -/
def fit (c : List Record) (eps : ℚ) (minPts : ℕ) : List (Record × ℤ) :=
  c.map (fun p => (p, labelOf c eps minPts p))

/-- The number of records a fit labels non-noise. -/
def nonNoiseCount (c : List Record) (eps : ℚ) (minPts : ℕ) : ℕ :=
  (fit c eps minPts).countP (fun e => decide (e.2 ≠ -1))

/-- Record ids a fitted assignment labels noise. -/
def noiseSet (assignment : List (Record × ℤ)) : List ℕ :=
  (assignment.filter (fun e => decide (e.2 = -1))).map (fun e => e.1.id)

/-- Record ids a fitted assignment puts in one cluster. -/
def clusterMembers (assignment : List (Record × ℤ)) (lab : ℤ) : List ℕ :=
  (assignment.filter (fun e => decide (e.2 = lab))).map (fun e => e.1.id)

/-! ## Recommendation service, modelled from the spec (section 4.3) -/

/-- The fitted, queryable artifact: every record with its cluster label. -/
structure ClusterModel where
  entries : List (Record × ℤ)

/-- Modelled from the spec: resolve a query to a catalog record by exact or
case-insensitive name match. -/
def lookupRecord (m : ClusterModel) (q : String) : Option (Record × ℤ) :=
  m.entries.find? (fun e => e.1.name == q || toLowerJS e.1.name == toLowerJS q)

/-- Modelled from the spec: the explanatory message returned with the
unique/outlier outcome (the frontend recognizes it by the word unique). -/
def outlierMessage (name : String) : String :=
  name ++ " is statistically unique - an outlier with no similar Pokemon"

/-- The three terminal outcomes of recommend: no record matched, the record
is a noise/outlier with zero candidates, or a candidate list (each
candidate with its squared distance from the query record). -/
inductive RecommendResult where
  | notFound
  | outlier (r : Record) (message : String)
  | found (r : Record) (cands : List (Record × ℚ))

/-- Modelled from the spec: the candidate order, ascending distance with
ties broken by catalog id ascending (comparing squared distances orders
exactly as comparing Euclidean distances). -/
def candidateOrder (a b : Record × ℚ) : Bool :=
  decide (a.2 < b.2) || (decide (a.2 = b.2) && decide (a.1.id ≤ b.1.id))

/-- Modelled from the spec: all other records sharing the query record's
cluster label. -/
def coClusterEntries (m : ClusterModel) (r : Record) (lab : ℤ) : List (Record × ℤ) :=
  m.entries.filter (fun e => decide (e.2 = lab) && decide (e.1.id ≠ r.id))

/-- Modelled from the spec: recommend(name, count). Lookup failure is
NotFound; a noise label is the unique/outlier outcome with zero
candidates; otherwise the co-cluster records are ranked by distance (ties
by id) and truncated to count. -/
def recommend (m : ClusterModel) (q : String) (count : ℕ) : RecommendResult :=
  match lookupRecord m q with
  | none => .notFound
  | some (r, lab) =>
    if lab = -1 then .outlier r (outlierMessage r.name)
    else
      let cands := (coClusterEntries m r lab).map (fun e => (e.1, dist2 r.vec e.1.vec))
      .found r ((cands.mergeSort candidateOrder).take count)

/-- The HTTP-shaped response the frontend consumes: the result pattern of
apiClient with the payload fields the recommendations component reads
(data.message and data.recommendations, the latter reduced to the
candidate names). -/
structure RecResponse where
  success : Bool
  error : Option String
  message : Option String
  recommendations : List String

/-- Serialization of a recommend outcome into the response the frontend
sees: NotFound surfaces as the 404 failure apiClient would produce, the
outlier outcome carries its message and an empty candidate list, a found
outcome carries its candidates. -/
def toResponse : RecommendResult → RecResponse
  | .notFound => ⟨false, some (httpErrorMessage 404 "Not Found"), none, []⟩
  | .outlier _ msg => ⟨true, none, some msg, []⟩
  | .found _ cands => ⟨true, none, none, cands.map (fun p => p.1.name)⟩

/-! ## Recommendations component (frontend/src/sections/ml/recommendations.js) -/

/-- What the component renders for one response. -/
inductive RenderOutcome where
  | errorInitializing
  | errorNotFound
  | errorGeneric (message : String)
  | uniqueMessage
  | recommendationList (recs : List String)
deriving DecidableEq

/-- The response handling of fetchAndRenderRecommendations: a failure
renders the initializing message on a 503, the not-found message on a 404,
and a generic error otherwise; a success renders the unique message when
the payload message mentions unique or the candidate list is empty, and
the recommendation cards otherwise. -/
def fetchAndRenderRecommendations (result : RecResponse) : RenderOutcome :=
  if result.success = false then
    match result.error with
    | some e =>
      if e ≠ "" ∧ strContains e "503" = true then .errorInitializing
      else if e ≠ "" ∧ strContains e "404" = true then .errorNotFound
      else .errorGeneric (if e = "" then "Failed to load recommendations" else e)
    | none => .errorGeneric "Failed to load recommendations"
  else
    match result.message with
    | some msg =>
      if msg ≠ "" ∧ strContains msg "unique" = true then .uniqueMessage
      else if result.recommendations = [] then .uniqueMessage
      else .recommendationList result.recommendations
    | none =>
      if result.recommendations = [] then .uniqueMessage
      else .recommendationList result.recommendations

/-! ## Feature encoder, numeric standardization (section 4.1),
modelled from the spec

The backend encoder is not in the staged sources. Per the spec each
numeric attribute is standardized to (x - mean) / stddev with the mean and
standard deviation of that attribute over the full fitting catalog, and a
zero standard deviation makes the normalized value 0 for every record.
Mean and variance stay rational; the standard deviation is the real square
root of the variance. -/

/-- Mean of a list of rationals (0 for the empty list). -/
def meanQ (xs : List ℚ) : ℚ := xs.sum / xs.length

/-- Population variance of a list of rationals. -/
def varQ (xs : List ℚ) : ℚ := ((xs.map (fun x => (x - meanQ xs) ^ 2)).sum) / xs.length

/-- Standard deviation: the real square root of the variance. -/
noncomputable def stddevQ (xs : List ℚ) : ℝ := Real.sqrt (varQ xs)

/-- Modelled from the spec: the z-score of one value against one attribute
column, with the zero-standard-deviation guard returning 0. -/
noncomputable def zscore (xs : List ℚ) (x : ℚ) : ℝ :=
  if stddevQ xs = 0 then 0 else ((x : ℝ) - (meanQ xs : ℝ)) / stddevQ xs

/-- Attribute column j of the fitting catalog (rows of numeric
attributes). -/
def columnOf (catalog : List (List ℚ)) (j : ℕ) : List ℚ :=
  catalog.map (fun row => row.getD j 0)

/-- Modelled from the spec: the numeric block of encode(record, context),
the z-score of every attribute of the row against its catalog column. -/
noncomputable def encodeNumeric (catalog : List (List ℚ)) (row : List ℚ) : List ℝ :=
  (List.range row.length).map (fun j => zscore (columnOf catalog j) (row.getD j 0))

/-! ## Helper lemmas -/

/-- The empty pattern occurs in every haystack. -/
theorem containsData_nil_pat (l : List Char) : containsData [] l = true := by
  induction l with
  | nil => rfl
  | cons h t ih => simp [containsData, startsWithData]

/-- A pattern occurring in a suffix occurs in the whole list. -/
theorem containsData_append_right (pat l₁ l₂ : List Char)
    (h : containsData pat l₂ = true) : containsData pat (l₁ ++ l₂) = true := by
  induction l₁ with
  | nil => simpa using h
  | cons a t ih => simp [containsData, ih]

/-- The substring test with an empty pattern accepts every string. -/
theorem strContains_empty_pat (s : String) : strContains s "" = true :=
  containsData_nil_pat s.data

/-- Appending to a nonempty string stays nonempty. -/
theorem append_ne_empty_left (s t : String) (hs : s ≠ "") : s ++ t ≠ "" := by
  intro h
  apply hs
  have hd := congrArg String.data h
  rw [String.data_append] at hd
  rcases List.append_eq_nil.mp hd with ⟨h1, _⟩
  cases s with
  | mk d => simp_all

/-- The HTTP error string of a non-ok response is never empty. -/
theorem httpErrorMessage_ne_empty (status : ℕ) (statusText : String) :
    httpErrorMessage status statusText ≠ "" := by
  unfold httpErrorMessage
  rw [String.append_assoc, String.append_assoc]
  exact append_ne_empty_left _ _ (by decide)

/-- The error string taken from a caught exception is never empty. -/
theorem jsErrorMessage_ne_empty (m : String) : jsErrorMessage m ≠ "" := by
  unfold jsErrorMessage
  split
  · decide
  · assumption

/-! ## C2 -/

/-- C2: the claim says every method the ML components invoke on the
PokemonService object is a defined function of it. The service object
literal defines only getAll and search, so getRecommendations (invoked by
the recommendations component) and getClusterVisualization (invoked by the
cluster chart component) are both absent, and each invocation raises a
TypeError at runtime. -/
theorem c2_pokemonService_missing_methods :
    pokemonServiceMethods.contains recommendationsComponentCall = false ∧
    pokemonServiceMethods.contains clusterChartComponentCall = false := by
  decide

/-! ## C4 -/

/-- C4: the name search. A dispatched term whose lower-casing survives
trimming unchanged retains exactly the records whose name contains the
term case-insensitively, and a term that trims to nothing (empty or all
whitespace) yields the entire catalog unchanged. -/
theorem c4_search_filter (catalog : List Record) (detail : String) :
    (trimJS (toLowerJS detail) = "" → searchPipeline catalog detail = catalog) ∧
    (trimJS (toLowerJS detail) = toLowerJS detail →
      searchPipeline catalog detail =
        catalog.filter (fun r => strContains (toLowerJS r.name) (toLowerJS detail))) := by
  constructor
  · intro h
    simp [searchPipeline, h]
  · intro h
    unfold searchPipeline
    rw [h]
    by_cases he : toLowerJS detail = ""
    · rw [if_pos he, he]
      symm
      rw [List.filter_eq_self]
      intro r _
      exact strContains_empty_pat (toLowerJS r.name)
    · rw [if_neg he]
      rfl

/-! ## C10 -/

/-- C10: apiClient is total over its error cases. An ok response with a
parsed body yields success true with the normalized data; the
normalization takes json.data.results when present and truthy, else
json.data when present and truthy, else the raw json; every other outcome
(non-ok response, fetch rejection, parse failure) yields success false
with a nonempty error string — no outcome escapes as an exception. -/
theorem c10_apiClient_total (o : FetchOutcome) :
    (∀ status statusText json, o = .response true status statusText (.ok json) →
      apiClient o = ⟨true, some (normalizeData json), none⟩) ∧
    ((∀ status statusText json, o ≠ .response true status statusText (.ok json)) →
      (apiClient o).success = false ∧ (apiClient o).data = none ∧
      ∃ e, (apiClient o).error = some e ∧ e ≠ "") ∧
    (∀ json d r, json.getField "data" = some d → d.getField "results" = some r →
      (r.truthy = true → normalizeData json = r) ∧
      (r.truthy = false → d.truthy = true → normalizeData json = d) ∧
      (r.truthy = false → d.truthy = false → normalizeData json = json)) ∧
    (∀ json d, json.getField "data" = some d → d.getField "results" = none →
      (d.truthy = true → normalizeData json = d) ∧
      (d.truthy = false → normalizeData json = json)) ∧
    (∀ json, json.getField "data" = none → normalizeData json = json) := by
  refine ⟨?_, ?_, ?_, ?_, ?_⟩
  · rintro status statusText json rfl
    simp [apiClient]
  · intro hne
    cases o with
    | throws m =>
      exact ⟨rfl, rfl, jsErrorMessage m, rfl, jsErrorMessage_ne_empty m⟩
    | response ok status statusText body =>
      cases ok with
      | false =>
        exact ⟨rfl, rfl, httpErrorMessage status statusText, rfl,
          httpErrorMessage_ne_empty status statusText⟩
      | true =>
        cases body with
        | ok json => exact absurd rfl (hne status statusText json)
        | error m =>
          exact ⟨rfl, rfl, jsErrorMessage m, rfl, jsErrorMessage_ne_empty m⟩
  · intro json d r hd hr
    refine ⟨?_, ?_, ?_⟩
    · intro ht
      simp [normalizeData, hd, hr, jsOr, ht]
    · intro hf ht
      simp [normalizeData, hd, hr, jsOr, hf, ht]
    · intro hf hf2
      simp [normalizeData, hd, hr, jsOr, hf, hf2]
  · intro json d hd hr
    constructor
    · intro ht
      simp [normalizeData, hd, hr, jsOr, ht]
    · intro hf
      simp [normalizeData, hd, hr, jsOr, hf]
  · intro json hd
    simp [normalizeData, hd, jsOr]

/-! ## C1 -/

/-- C1: the recommendation response handling maps a success response to
exactly one of the unique/outlier outcome or a non-empty recommendation
list, never to an error rendering, and maps the not-found failure (the 404
error string apiClient builds) to the dedicated not-found rendering, never
to the generic failure rendering. -/
theorem c1_recommendation_outcomes (res : RecResponse) :
    (res.success = true →
      ((fetchAndRenderRecommendations res = .uniqueMessage ∧
          ∀ l, fetchAndRenderRecommendations res ≠ .recommendationList l) ∨
        (∃ l, l ≠ [] ∧ fetchAndRenderRecommendations res = .recommendationList l ∧
          fetchAndRenderRecommendations res ≠ .uniqueMessage)) ∧
      (∀ m, fetchAndRenderRecommendations res ≠ .errorGeneric m) ∧
      fetchAndRenderRecommendations res ≠ .errorNotFound ∧
      fetchAndRenderRecommendations res ≠ .errorInitializing) ∧
    (res.success = false → res.error = some (httpErrorMessage 404 "Not Found") →
      fetchAndRenderRecommendations res = .errorNotFound ∧
      ∀ m, fetchAndRenderRecommendations res ≠ .errorGeneric m) := by
  obtain ⟨s, err, msgO, recs⟩ := res
  constructor
  · rintro rfl
    cases msgO with
    | some msg =>
      have hE : fetchAndRenderRecommendations ⟨true, err, some msg, recs⟩ =
          (if msg ≠ "" ∧ strContains msg "unique" = true then .uniqueMessage
           else if recs = [] then .uniqueMessage
           else .recommendationList recs) := rfl
      rw [hE]
      by_cases hu : msg ≠ "" ∧ strContains msg "unique" = true
      · rw [if_pos hu]
        exact ⟨Or.inl ⟨rfl, by simp⟩, by simp, by simp, by simp⟩
      · rw [if_neg hu]
        by_cases hr : recs = []
        · rw [if_pos hr]
          exact ⟨Or.inl ⟨rfl, by simp⟩, by simp, by simp, by simp⟩
        · rw [if_neg hr]
          exact ⟨Or.inr ⟨recs, hr, rfl, by simp⟩, by simp, by simp, by simp⟩
    | none =>
      have hE : fetchAndRenderRecommendations ⟨true, err, none, recs⟩ =
          (if recs = [] then .uniqueMessage else .recommendationList recs) := rfl
      rw [hE]
      by_cases hr : recs = []
      · rw [if_pos hr]
        exact ⟨Or.inl ⟨rfl, by simp⟩, by simp, by simp, by simp⟩
      · rw [if_neg hr]
        exact ⟨Or.inr ⟨recs, hr, rfl, by simp⟩, by simp, by simp, by simp⟩
  · rintro rfl rfl
    have hE : fetchAndRenderRecommendations
        ⟨false, some (httpErrorMessage 404 "Not Found"), msgO, recs⟩ =
        (if httpErrorMessage 404 "Not Found" ≠ "" ∧
            strContains (httpErrorMessage 404 "Not Found") "503" = true
         then .errorInitializing
         else if httpErrorMessage 404 "Not Found" ≠ "" ∧
            strContains (httpErrorMessage 404 "Not Found") "404" = true
         then .errorNotFound
         else .errorGeneric (if httpErrorMessage 404 "Not Found" = ""
            then "Failed to load recommendations"
            else httpErrorMessage 404 "Not Found")) := rfl
    rw [hE, if_neg (by decide), if_pos (by decide)]
    exact ⟨rfl, by simp⟩

/-! ## C3 -/

/-- Appending a nonempty string on the right stays nonempty. -/
theorem append_ne_empty_right (s t : String) (ht : t ≠ "") : s ++ t ≠ "" := by
  intro h
  apply ht
  have hd := congrArg String.data h
  rw [String.data_append] at hd
  rcases List.append_eq_nil.mp hd with ⟨_, h2⟩
  cases t with
  | mk d => simp_all

/-- The outlier message is never the empty string. -/
theorem outlierMessage_ne_empty (name : String) : outlierMessage name ≠ "" :=
  append_ne_empty_right _ _ (by decide)

/-- The outlier message always carries the word unique, which the frontend
checks for. -/
theorem outlierMessage_contains_unique (name : String) :
    strContains (outlierMessage name) "unique" = true := by
  unfold strContains outlierMessage
  rw [String.data_append]
  exact containsData_append_right _ _ _ (by decide)

/-- C3: a recommendation query resolving to a record labeled noise (-1)
returns the unique/outlier outcome with its explanatory message and zero
candidates — never NotFound, never a candidate list — and the frontend
renders that response as the normal unique message, not as an error
state. -/
theorem c3_noise_is_outlier_outcome (m : ClusterModel) (q : String) (n : ℕ)
    (r : Record) (h : lookupRecord m q = some (r, -1)) :
    recommend m q n = .outlier r (outlierMessage r.name) ∧
    recommend m q n ≠ .notFound ∧
    (∀ r0 cands, recommend m q n ≠ .found r0 cands) ∧
    (toResponse (recommend m q n)).recommendations = [] ∧
    fetchAndRenderRecommendations (toResponse (recommend m q n)) = .uniqueMessage := by
  have hrec : recommend m q n = .outlier r (outlierMessage r.name) := by
    unfold recommend
    rw [h]
    simp
  refine ⟨hrec, by rw [hrec]; simp, by intro r0 cands; rw [hrec]; simp, by rw [hrec]; rfl, ?_⟩
  rw [hrec]
  have hE : fetchAndRenderRecommendations ⟨true, none, some (outlierMessage r.name), []⟩ =
      (if outlierMessage r.name ≠ "" ∧ strContains (outlierMessage r.name) "unique" = true
       then .uniqueMessage
       else if ([] : List String) = [] then .uniqueMessage
       else .recommendationList []) := rfl
  show fetchAndRenderRecommendations ⟨true, none, some (outlierMessage r.name), []⟩ =
    RenderOutcome.uniqueMessage
  rw [hE, if_pos ⟨outlierMessage_ne_empty r.name, outlierMessage_contains_unique r.name⟩]

/-! ## C8 -/

/-- C8: fitting is a pure function of the catalog and the parameters, so
two runs of fit over the same catalog with the same eps and minPts yield
the same assignment — in particular the same noise set and the same
member set for every cluster label — and recommend against the two
resulting models answers every query identically. -/
theorem c8_fit_deterministic (c : List Record) (eps : ℚ) (minPts : ℕ)
    (A1 A2 : List (Record × ℤ)) (h1 : A1 = fit c eps minPts)
    (h2 : A2 = fit c eps minPts) :
    A1 = A2 ∧ noiseSet A1 = noiseSet A2 ∧
    (∀ lab, clusterMembers A1 lab = clusterMembers A2 lab) ∧
    (∀ q n, recommend ⟨A1⟩ q n = recommend ⟨A2⟩ q n) := by
  subst h1
  subst h2
  exact ⟨rfl, rfl, fun _ => rfl, fun _ _ => rfl⟩

/-! ## C7 -/

/-- Pointwise-implied filters keep at least as many elements. -/
theorem length_filter_mono {α : Type} (l : List α) (p q : α → Bool)
    (h : ∀ a ∈ l, p a = true → q a = true) :
    (l.filter p).length ≤ (l.filter q).length := by
  rw [← List.countP_eq_length_filter, ← List.countP_eq_length_filter]
  exact List.countP_mono_left h

/-- Growing the radius keeps every within-range pair within range. -/
theorem inRange_mono (eps1 eps2 : ℚ) (u v : List ℚ) (h0 : 0 ≤ eps1)
    (h12 : eps1 ≤ eps2) (h : inRange eps1 u v = true) : inRange eps2 u v = true := by
  unfold inRange at h ⊢
  simp only [decide_eq_true_eq] at h ⊢
  exact le_trans h (pow_le_pow_left₀ h0 h12 2)

/-- Growing the radius keeps every core point a core point. -/
theorem isCore_mono (c : List Record) (eps1 eps2 : ℚ) (minPts : ℕ) (p : Record)
    (h0 : 0 ≤ eps1) (h12 : eps1 ≤ eps2) (hc : isCore c eps1 minPts p = true) :
    isCore c eps2 minPts p = true := by
  unfold isCore at hc ⊢
  simp only [decide_eq_true_eq] at hc ⊢
  refine le_trans hc ?_
  unfold neighborhood
  exact length_filter_mono c _ _ (fun a _ ha => inRange_mono eps1 eps2 p.vec a.vec h0 h12 ha)

/-- A record is labeled noise exactly when no core point reaches it. -/
theorem labelOf_eq_neg_one_iff (c : List Record) (eps : ℚ) (minPts : ℕ) (p : Record) :
    labelOf c eps minPts p = -1 ↔ coresInRange c eps minPts p = [] := by
  unfold labelOf
  cases hcr : coresInRange c eps minPts p with
  | nil => simp
  | cons a as =>
    simp only [List.map_cons, List.cons_ne_nil, iff_false]
    intro hcontra
    simp only [Int.ofNat_eq_natCast] at hcontra
    omega

/-- C7: with the radius grown (and minPts fixed) every record reached by a
core point is still reached, so the number of non-noise records a fit
produces never decreases. -/
theorem c7_nonNoise_monotone_eps (c : List Record) (eps1 eps2 : ℚ) (minPts : ℕ)
    (h0 : 0 ≤ eps1) (h12 : eps1 ≤ eps2) :
    nonNoiseCount c eps1 minPts ≤ nonNoiseCount c eps2 minPts := by
  unfold nonNoiseCount fit
  rw [List.countP_map, List.countP_map]
  apply List.countP_mono_left
  intro p hp h1
  simp only [Function.comp, decide_eq_true_eq] at h1 ⊢
  rw [Ne, labelOf_eq_neg_one_iff] at h1 ⊢
  obtain ⟨q, hq⟩ := List.exists_mem_of_ne_nil _ h1
  apply List.ne_nil_of_mem (a := q)
  unfold coresInRange at hq ⊢
  rw [List.mem_filter] at hq ⊢
  obtain ⟨hqc, hcond⟩ := hq
  rw [Bool.and_eq_true] at hcond
  refine ⟨hqc, ?_⟩
  rw [Bool.and_eq_true]
  exact ⟨isCore_mono c eps1 eps2 minPts q h0 h12 hcond.1,
    inRange_mono eps1 eps2 p.vec q.vec h0 h12 hcond.2⟩

/-! ## C5 -/

/-- Squared Euclidean distance is nonnegative. -/
theorem dist2_nonneg (u v : List ℚ) : 0 ≤ dist2 u v := by
  unfold dist2
  induction u generalizing v with
  | nil => simp
  | cons a as ih =>
    cases v with
    | nil => simp
    | cons b bs =>
      simp only [List.zipWith_cons_cons, List.sum_cons]
      exact add_nonneg (sq_nonneg (a - b)) (ih bs)

/-- Ascending Euclidean distance with the catalog-id tiebreak, stated on
candidate pairs carrying their squared distance (the Euclidean distance is
its real square root). -/
def euclidLex (a b : Record × ℚ) : Prop :=
  Real.sqrt ((a.2 : ℝ)) < Real.sqrt ((b.2 : ℝ)) ∨
    (Real.sqrt ((a.2 : ℝ)) = Real.sqrt ((b.2 : ℝ)) ∧ a.1.id ≤ b.1.id)

/-- The candidate comparator is transitive. -/
theorem candidateOrder_trans (a b c : Record × ℚ) (hab : candidateOrder a b = true)
    (hbc : candidateOrder b c = true) : candidateOrder a c = true := by
  unfold candidateOrder at hab hbc ⊢
  simp only [Bool.or_eq_true, Bool.and_eq_true, decide_eq_true_eq] at hab hbc ⊢
  rcases hab with h1 | ⟨h1, h2⟩ <;> rcases hbc with h3 | ⟨h3, h4⟩
  · exact Or.inl (lt_trans h1 h3)
  · exact Or.inl (h3 ▸ h1)
  · exact Or.inl (h1 ▸ h3)
  · exact Or.inr ⟨h1.trans h3, le_trans h2 h4⟩

/-- The candidate comparator is total. -/
theorem candidateOrder_total (a b : Record × ℚ) :
    (candidateOrder a b || candidateOrder b a) = true := by
  unfold candidateOrder
  simp only [Bool.or_eq_true, Bool.and_eq_true, decide_eq_true_eq]
  rcases lt_trichotomy a.2 b.2 with h | h | h
  · exact Or.inl (Or.inl h)
  · rcases le_total a.1.id b.1.id with h2 | h2
    · exact Or.inl (Or.inr ⟨h, h2⟩)
    · exact Or.inr (Or.inr ⟨h.symm, h2⟩)
  · exact Or.inr (Or.inl h)

/-- On nonnegative squared distances the comparator implies the
Euclidean-distance lexicographic order. -/
theorem candidateOrder_implies_euclidLex (a b : Record × ℚ) (ha : 0 ≤ a.2)
    (_hb : 0 ≤ b.2) (h : candidateOrder a b = true) : euclidLex a b := by
  unfold candidateOrder at h
  simp only [Bool.or_eq_true, Bool.and_eq_true, decide_eq_true_eq] at h
  unfold euclidLex
  rcases h with h | ⟨h1, h2⟩
  · exact Or.inl (Real.sqrt_lt_sqrt (by exact_mod_cast ha) (by exact_mod_cast h))
  · exact Or.inr ⟨by rw [h1], h2⟩

/-- C5: on a query resolving to a non-noise record, recommend returns a
found outcome whose candidates are drawn from the other records sharing
the query record's cluster label, each carrying its squared distance from
the query record, listed in ascending Euclidean distance with ties broken
by catalog id ascending, and truncated to at most the requested count. -/
theorem c5_recommend_ranked (m : ClusterModel) (q : String) (count : ℕ)
    (r : Record) (lab : ℤ) (h : lookupRecord m q = some (r, lab)) (hlab : lab ≠ -1) :
    ∃ cands,
      recommend m q count = .found r cands ∧
      cands.length = min count (coClusterEntries m r lab).length ∧
      (∀ p ∈ cands, (∃ e ∈ m.entries, e.2 = lab ∧ e.1.id ≠ r.id ∧ p.1 = e.1) ∧
        p.2 = dist2 r.vec p.1.vec) ∧
      List.Pairwise euclidLex cands := by
  have hrec : recommend m q count =
      .found r ((((coClusterEntries m r lab).map
        (fun e => (e.1, dist2 r.vec e.1.vec))).mergeSort candidateOrder).take count) := by
    unfold recommend
    rw [h]
    simp [hlab]
  set base := (coClusterEntries m r lab).map (fun e => (e.1, dist2 r.vec e.1.vec))
    with hbase
  set sorted := base.mergeSort candidateOrder with hsorted
  refine ⟨sorted.take count, hrec, ?_, ?_, ?_⟩
  · have hlen : sorted.length = (coClusterEntries m r lab).length := by
      rw [hsorted, (List.mergeSort_perm base candidateOrder).length_eq, hbase,
        List.length_map]
    rw [List.length_take, hlen]
  · intro p hp
    have hp2 : p ∈ sorted := List.mem_of_mem_take hp
    have hp3 : p ∈ base := ((List.mergeSort_perm base candidateOrder).mem_iff).mp hp2
    rw [hbase, List.mem_map] at hp3
    obtain ⟨e, he, rfl⟩ := hp3
    unfold coClusterEntries at he
    rw [List.mem_filter] at he
    obtain ⟨hent, hcond⟩ := he
    rw [Bool.and_eq_true, decide_eq_true_eq, decide_eq_true_eq] at hcond
    exact ⟨⟨e, hent, hcond.1, hcond.2, rfl⟩, rfl⟩
  · have hpw : sorted.Pairwise (fun a b => candidateOrder a b = true) :=
      List.sorted_mergeSort candidateOrder_trans candidateOrder_total base
    have hnn : ∀ p ∈ sorted, 0 ≤ p.2 := by
      intro p hp
      have hpb : p ∈ base := ((List.mergeSort_perm base candidateOrder).mem_iff).mp hp
      rw [hbase, List.mem_map] at hpb
      obtain ⟨e, _, rfl⟩ := hpb
      exact dist2_nonneg _ _
    have hpw2 : sorted.Pairwise euclidLex :=
      hpw.imp_of_mem (fun {a b} hma hmb hab =>
        candidateOrder_implies_euclidLex a b (hnn a hma) (hnn b hmb) hab)
    exact List.Pairwise.sublist (List.take_sublist count sorted) hpw2

/-! ## C6 -/

/-- The population variance is nonnegative. -/
theorem varQ_nonneg (xs : List ℚ) : 0 ≤ varQ xs := by
  unfold varQ
  apply div_nonneg
  · apply List.sum_nonneg
    intro x hx
    rw [List.mem_map] at hx
    obtain ⟨y, _, rfl⟩ := hx
    exact sq_nonneg _
  · exact Nat.cast_nonneg _

/-- C6: the numeric encoder standardizes attribute j of a row to the
z-score against that attribute column of the full fitting catalog; the
standard deviation vanishes exactly when the variance does, a vanishing
standard deviation makes the normalized value 0 for every record, and
otherwise the normalized value times the standard deviation recovers
x minus the mean, so the division is always by a nonzero number. -/
theorem c6_encoder_standardization (catalog : List (List ℚ)) (row : List ℚ) (j : ℕ)
    (hj : j < row.length) :
    (encodeNumeric catalog row)[j]? = some (zscore (columnOf catalog j) (row.getD j 0)) ∧
    (stddevQ (columnOf catalog j) = 0 ↔ varQ (columnOf catalog j) = 0) ∧
    (varQ (columnOf catalog j) = 0 → zscore (columnOf catalog j) (row.getD j 0) = 0) ∧
    (varQ (columnOf catalog j) ≠ 0 →
      stddevQ (columnOf catalog j) ≠ 0 ∧
      zscore (columnOf catalog j) (row.getD j 0) * stddevQ (columnOf catalog j) =
        ((row.getD j 0 : ℚ) : ℝ) - ((meanQ (columnOf catalog j) : ℚ) : ℝ)) := by
  have hsz : stddevQ (columnOf catalog j) = 0 ↔ varQ (columnOf catalog j) = 0 := by
    unfold stddevQ
    rw [Real.sqrt_eq_zero']
    constructor
    · intro hle
      have hge : (0 : ℝ) ≤ (varQ (columnOf catalog j) : ℝ) := by
        exact_mod_cast varQ_nonneg (columnOf catalog j)
      have hz : ((varQ (columnOf catalog j) : ℚ) : ℝ) = 0 := le_antisymm hle hge
      exact_mod_cast hz
    · intro h
      rw [h]
      simp
  refine ⟨?_, hsz, ?_, ?_⟩
  · unfold encodeNumeric
    rw [List.getElem?_map, List.getElem?_range hj]
    rfl
  · intro hv
    unfold zscore
    rw [if_pos (hsz.mpr hv)]
  · intro hv
    have hs : stddevQ (columnOf catalog j) ≠ 0 := fun hzero => hv (hsz.mp hzero)
    refine ⟨hs, ?_⟩
    unfold zscore
    rw [if_neg hs]
    exact div_mul_cancel₀ _ hs

/-! ## Witnesses and counterexamples -/

/-- C4 counterexample: a term with leading whitespace around real content.
The frontend trims the term before matching, so the pipeline keeps Pikachu
for the term " chu" although the name does not contain " chu" as a
(case-insensitive) substring — the claim read literally fails on terms
with surrounding whitespace. -/
theorem c4_counterexample :
    searchPipeline [⟨25, "Pikachu", []⟩] " chu" = [⟨25, "Pikachu", []⟩] ∧
    List.filter (fun (r : Record) => strContains (toLowerJS r.name) (toLowerJS " chu"))
      [⟨25, "Pikachu", []⟩] = [] := by
  constructor
  · rfl
  · rfl

/-- C1 witness: a concrete success response with one candidate is rendered
as the non-empty recommendation list, never as the unique message or an
error. -/
theorem c1_witness :
    (fetchAndRenderRecommendations ⟨true, none, none, ["Bulbasaur"]⟩ =
        .uniqueMessage ∧
      ∀ l, fetchAndRenderRecommendations ⟨true, none, none, ["Bulbasaur"]⟩ ≠
        .recommendationList l) ∨
    (∃ l, l ≠ [] ∧ fetchAndRenderRecommendations ⟨true, none, none, ["Bulbasaur"]⟩ =
        .recommendationList l ∧
      fetchAndRenderRecommendations ⟨true, none, none, ["Bulbasaur"]⟩ ≠
        .uniqueMessage) :=
  ((c1_recommendation_outcomes ⟨true, none, none, ["Bulbasaur"]⟩).1 rfl).1

/-- C3 witness: a one-record model whose record is labeled noise; the
query on it renders the unique message. -/
theorem c3_witness :
    fetchAndRenderRecommendations (toResponse
      (recommend ⟨[(⟨25, "Pikachu", []⟩, -1)]⟩ "Pikachu" 5)) = .uniqueMessage :=
  (c3_noise_is_outlier_outcome ⟨[(⟨25, "Pikachu", []⟩, -1)]⟩ "Pikachu" 5
    ⟨25, "Pikachu", []⟩ rfl).2.2.2.2

/-- C4 witness: for the trimmed term CHU the pipeline is exactly the
case-insensitive substring filter. -/
theorem c4_witness :
    searchPipeline [⟨25, "Pikachu", []⟩, ⟨1, "Bulbasaur", []⟩, ⟨26, "Raichu", []⟩]
        "CHU" =
      List.filter (fun (r : Record) => strContains (toLowerJS r.name) (toLowerJS "CHU"))
        [⟨25, "Pikachu", []⟩, ⟨1, "Bulbasaur", []⟩, ⟨26, "Raichu", []⟩] :=
  (c4_search_filter [⟨25, "Pikachu", []⟩, ⟨1, "Bulbasaur", []⟩, ⟨26, "Raichu", []⟩]
    "CHU").2 (by decide)

/-- Concrete model for the C5 witness: three co-clustered records and one
noise record. -/
def wModel5 : ClusterModel :=
  ⟨[(⟨1, "Alpha", [0]⟩, 7), (⟨2, "Beta", [1]⟩, 7), (⟨3, "Gamma", [3]⟩, 7),
    (⟨4, "Delta", [100]⟩, -1)]⟩

/-- The C5 witness query record. -/
def wRec5 : Record := ⟨1, "Alpha", [0]⟩

/-- C5 witness: the ranked recommendation conclusion at a concrete
model, query and count. -/
theorem c5_witness :
    ∃ cands,
      recommend wModel5 "Alpha" 2 = .found wRec5 cands ∧
      cands.length = min 2 (coClusterEntries wModel5 wRec5 7).length ∧
      (∀ p ∈ cands, (∃ e ∈ wModel5.entries, e.2 = 7 ∧ e.1.id ≠ wRec5.id ∧ p.1 = e.1) ∧
        p.2 = dist2 wRec5.vec p.1.vec) ∧
      List.Pairwise euclidLex cands :=
  c5_recommend_ranked wModel5 "Alpha" 2 wRec5 7 rfl (by decide)

/-- C6 witness: a catalog whose single attribute is constant has variance
zero, and the z-score of a record value for that attribute is 0. -/
theorem c6_witness :
    varQ (columnOf [[0], [0], [0]] 0) = 0 ∧
    zscore (columnOf [[0], [0], [0]] 0) (List.getD [0] 0 0) = 0 := by
  have hv : varQ (columnOf [[0], [0], [0]] 0) = 0 := by
    simp [varQ, meanQ, columnOf]
  exact ⟨hv, (c6_encoder_standardization [[0], [0], [0]] [0] 0 (by decide)).2.2.1 hv⟩

/-- C7 witness: the monotonicity conclusion at a concrete catalog with
radii 1 and 2. -/
theorem c7_witness :
    nonNoiseCount [⟨1, "Alpha", [0]⟩, ⟨2, "Beta", [1]⟩] 1 2 ≤
      nonNoiseCount [⟨1, "Alpha", [0]⟩, ⟨2, "Beta", [1]⟩] 2 2 :=
  c7_nonNoise_monotone_eps [⟨1, "Alpha", [0]⟩, ⟨2, "Beta", [1]⟩] 1 2 2
    zero_le_one one_le_two

/-- C8 witness: two runs of fit on a concrete catalog agree, as do their
noise sets, member sets and recommend outputs. -/
theorem c8_witness :
    fit [⟨1, "Alpha", [0]⟩] 1 1 = fit [⟨1, "Alpha", [0]⟩] 1 1 ∧
    noiseSet (fit [⟨1, "Alpha", [0]⟩] 1 1) = noiseSet (fit [⟨1, "Alpha", [0]⟩] 1 1) ∧
    (∀ lab, clusterMembers (fit [⟨1, "Alpha", [0]⟩] 1 1) lab =
      clusterMembers (fit [⟨1, "Alpha", [0]⟩] 1 1) lab) ∧
    (∀ q n, recommend ⟨fit [⟨1, "Alpha", [0]⟩] 1 1⟩ q n =
      recommend ⟨fit [⟨1, "Alpha", [0]⟩] 1 1⟩ q n) :=
  c8_fit_deterministic [⟨1, "Alpha", [0]⟩] 1 1 (fit [⟨1, "Alpha", [0]⟩] 1 1)
    (fit [⟨1, "Alpha", [0]⟩] 1 1) rfl rfl

/-- C10 witness: an ok response with a parsed body resolves to success with
the normalized payload. -/
theorem c10_witness :
    apiClient (.response true 200 "OK" (.ok (Json.object [("data",
        Json.object [("results", Json.array [Json.string "Pikachu"])])]))) =
      ⟨true, some (normalizeData (Json.object [("data",
        Json.object [("results", Json.array [Json.string "Pikachu"])])])), none⟩ :=
  (c10_apiClient_total (.response true 200 "OK" (.ok (Json.object [("data",
    Json.object [("results", Json.array [Json.string "Pikachu"])])])))).1
    200 "OK" (Json.object [("data",
      Json.object [("results", Json.array [Json.string "Pikachu"])])]) rfl
